import Mathlib

/-!
Verification of the YouTube comment scraper backend
(`python-backend/main.py`) against its natural-language specification.

The Python source is shallowly embedded: floats become `ℚ`, Python lists
become `List`, dictionaries of fixed shape become structures, exceptions
become `Except`, and random draws become explicitly injected parameters.
All definitions are total and executable, so closed statements about them
evaluate by `decide` or `rfl`.
-/

/-! ## Sentiment analyzer (`SentimentAnalyzer`)

`political_keywords` lexicons from `SentimentAnalyzer.__init__`. -/

/-- Lexicon `political_keywords['positive']`. -/
def positiveWords : List String :=
  ["great", "excellent", "amazing", "fantastic", "wonderful", "brilliant",
   "outstanding", "perfect", "love", "awesome", "incredible", "superb"]

/-- Lexicon `political_keywords['negative']`. -/
def negativeWords : List String :=
  ["terrible", "awful", "horrible", "disgusting", "pathetic", "waste",
   "stupid", "ridiculous", "hate", "worst", "trash", "garbage"]

/-- Lexicon `political_keywords['neutral']` (declared in the source but never
consulted by any scoring path). -/
def neutralWords : List String :=
  ["okay", "fine", "average", "normal", "standard", "decent", "alright"]

/-- A word character in the sense of the regex class `\w` (ASCII reading):
alphanumeric or underscore. -/
def isWordChar (c : Char) : Bool := c.isAlphanum || c == '_'

/-- Does the regex alternative `http\S+|www\S+|https\S+` match at the head of
`cs`?  The `https\S+` branch is subsumed by `http\S+`.  A match needs at least
one non-whitespace character after the literal prefix. -/
def urlStart (cs : List Char) : Bool :=
  (['h', 't', 't', 'p'].isPrefixOf cs && !((cs.drop 4).headD ' ').isWhitespace) ||
  (['w', 'w', 'w'].isPrefixOf cs && !((cs.drop 3).headD ' ').isWhitespace)

/-- One pass of `re.sub(r'http\S+|www\S+|https\S+', '', text)`.
When a match starts, the whole maximal run of non-whitespace characters from
the match position is removed (the literal prefix and the greedy `\S+` are all
non-whitespace), which the `skip` flag tracks. -/
def stripUrlsGo : List Char → Bool → List Char
  | [], _ => []
  | c :: rest, true =>
    if c.isWhitespace then c :: stripUrlsGo rest false
    else stripUrlsGo rest true
  | c :: rest, false =>
    if urlStart (c :: rest) then stripUrlsGo rest true
    else c :: stripUrlsGo rest false

/-- Does the regex alternative `@\w+|#\w+` match at the head of `cs`? -/
def tagStart (cs : List Char) : Bool :=
  match cs with
  | c :: d :: _ => (c == '@' || c == '#') && isWordChar d
  | _ => false

/-- One pass of `re.sub(r'@\w+|#\w+', '', text)`: a marker character followed
by a maximal nonempty run of word characters is removed. -/
def stripTagsGo : List Char → Bool → List Char
  | [], _ => []
  | c :: rest, skip =>
    if skip && isWordChar c then stripTagsGo rest true
    else if tagStart (c :: rest) then stripTagsGo rest true
    else c :: stripTagsGo rest false

/-- `re.sub(r'[^\w\s]', ' ', text)`: every character that is neither a word
character nor whitespace becomes a space. -/
def punctToSpace (c : Char) : Char :=
  if isWordChar c || c.isWhitespace then c else ' '

/-- Python `str.strip()`: drop whitespace from both ends. -/
def trimWs (cs : List Char) : List Char :=
  ((cs.dropWhile Char.isWhitespace).reverse.dropWhile Char.isWhitespace).reverse

/-- `SentimentAnalyzer._clean_text`: strip URLs, strip `@`/`#` tags, replace
the remaining non-word non-space characters by spaces, lowercase, strip. -/
def cleanText (s : String) : String :=
  String.mk (trimWs (((stripTagsGo (stripUrlsGo s.data false) false).map
    punctToSpace).map Char.toLower))

/-- Helper for `pySplit`: accumulate the current word (reversed) and emit it
at each whitespace boundary, dropping empty chunks. -/
def splitWsGo : List Char → List Char → List String
  | [], acc => if acc.isEmpty then [] else [String.mk acc.reverse]
  | c :: rest, acc =>
    if c.isWhitespace then
      if acc.isEmpty then splitWsGo rest []
      else String.mk acc.reverse :: splitWsGo rest []
    else splitWsGo rest (c :: acc)

/-- Python `str.split()` with no argument: split on whitespace runs,
discarding empty strings. -/
def pySplit (s : String) : List String := splitWsGo s.data []

/-- `sum(1 for word in words if word in lexicon)`. -/
def countHits (ws : List String) (lex : List String) : ℕ :=
  (ws.filter (fun w => lex.contains w)).length

/-- Positive-lexicon hit count of a (cleaned) text, as computed in both
`_analyze_with_keywords` and `_calculate_political_sentiment`. -/
def posHits (t : String) : ℕ := countHits (pySplit t) positiveWords

/-- Negative-lexicon hit count of a (cleaned) text. -/
def negHits (t : String) : ℕ := countHits (pySplit t) negativeWords

/-- `SentimentAnalyzer._calculate_political_sentiment`:
`(positive_count - negative_count) / total_words`, and `0` when the text has
no words. -/
def politicalSentiment (t : String) : ℚ :=
  if (pySplit t).length = 0 then 0
  else ((posHits t : ℚ) - (negHits t : ℚ)) / (((pySplit t).length : ℕ) : ℚ)

/-- Keyword set `emotions['anger']`. -/
def angerWords : List String :=
  ["angry", "mad", "furious", "outraged", "livid", "pissed", "rage"]

/-- Keyword set `emotions['joy']`. -/
def joyWords : List String :=
  ["happy", "excited", "thrilled", "delighted", "ecstatic", "cheerful", "joyful"]

/-- Keyword set `emotions['fear']`. -/
def fearWords : List String :=
  ["scared", "afraid", "worried", "anxious", "concerned", "nervous"]

/-- Keyword set `emotions['sadness']`. -/
def sadnessWords : List String :=
  ["sad", "disappointed", "depressed", "upset", "heartbroken", "miserable"]

/-- Keyword set `emotions['surprise']`. -/
def surpriseWords : List String :=
  ["surprised", "shocked", "amazed", "astonished", "stunned", "wow"]

/-- Substring test at any position, used to model Python `pat in text`. -/
def isSub (pat : List Char) : List Char → Bool
  | [] => pat.isEmpty
  | c :: rest => pat.isPrefixOf (c :: rest) || isSub pat rest

/-- Python `keyword in text` (substring containment). -/
def containsSub (text kw : String) : Bool := isSub kw.data text.data

/-- The `emotions` dictionary of `_detect_emotion`, in insertion (iteration)
order. -/
def emotionTable : List (String × List String) :=
  [("anger", angerWords), ("joy", joyWords), ("fear", fearWords),
   ("sadness", sadnessWords), ("surprise", surpriseWords)]

/-- The `for emotion, keywords in emotions.items()` loop of `_detect_emotion`:
first entry with a keyword occurring in the text wins. -/
def detectEmotionAux (t : String) : List (String × List String) → String
  | [] => "neutral"
  | (e, kws) :: rest =>
    if kws.any (fun k => containsSub t k) then e else detectEmotionAux t rest

/-- `SentimentAnalyzer._detect_emotion`. -/
def detectEmotion (t : String) : String := detectEmotionAux t emotionTable

/-- The dictionary returned by the sentiment-analysis paths, with Python
floats embedded as rationals. -/
structure SentimentResult where
  score : ℚ
  label : String
  polarity : ℚ
  subjectivity : ℚ
  political_score : ℚ
  confidence : ℚ
  emotion : String
deriving DecidableEq, Inhabited

/-- `SentimentAnalyzer._analyze_with_keywords` (the lexical-only strategy);
its argument is the already-cleaned text. -/
def analyzeWithKeywords (t : String) : SentimentResult :=
  let political := politicalSentiment t
  let emotion := detectEmotion t
  let pc := posHits t
  let nc := negHits t
  if pc > nc then
    let score : ℚ := min (4/5) (3/10 + ((pc : ℚ) - (nc : ℚ)) * (1/10))
    ⟨score, "positive", score, 1/2, political, |score|, emotion⟩
  else if nc > pc then
    let score : ℚ := max (-(4/5)) (-(3/10) - ((nc : ℚ) - (pc : ℚ)) * (1/10))
    ⟨score, "negative", score, 1/2, political, |score|, emotion⟩
  else
    ⟨0, "neutral", 0, 1/2, political, 0, emotion⟩

/-- `SentimentAnalyzer._analyze_with_textblob` (the NLP-augmented strategy),
with the external TextBlob polarity and subjectivity signals passed in as
parameters; its text argument is the already-cleaned text. -/
def analyzeWithTextblob (polarity subjectivity : ℚ) (t : String) : SentimentResult :=
  let political := politicalSentiment t
  let finalScore := (polarity + political) / 2
  let label :=
    if finalScore > 1/10 then "positive"
    else if finalScore < -(1/10) then "negative"
    else "neutral"
  ⟨finalScore, label, polarity, subjectivity, political, |finalScore|, detectEmotion t⟩

/-- `SentimentAnalyzer.analyze_sentiment`: clean the text, then use TextBlob
when available (`HAS_TEXTBLOB`, modeled as `some` of the collaborator signal)
and the keyword fallback otherwise. -/
def analyzeSentiment (textblob : Option (String → ℚ × ℚ)) (text : String) :
    SentimentResult :=
  let cleaned := cleanText text
  match textblob with
  | some f => analyzeWithTextblob (f cleaned).1 (f cleaned).2 cleaned
  | none => analyzeWithKeywords cleaned

/-! ## Video-id extraction (`YouTubeCommentScraper.extract_video_id`)

Python exceptions raised by this method become explicit error values. -/

/-- The exceptions `extract_video_id` can raise: the `KeyError` from the
`parse_qs(...)['v']` lookup and the final `ValueError` (the spec's
`InvalidReference`). -/
inductive PyErr where
  | keyError : String → PyErr
  | valueError : String → PyErr
deriving DecidableEq

/-- Split a character list at the first occurrence of `pat`, returning the
parts before and after the occurrence. -/
def splitAtSub (pat : List Char) : List Char → Option (List Char × List Char)
  | [] => if pat.isEmpty then some ([], []) else none
  | c :: rest =>
    if pat.isPrefixOf (c :: rest) then some ([], (c :: rest).drop pat.length)
    else
      match splitAtSub pat rest with
      | some (pre, post) => some (c :: pre, post)
      | none => none

/-- Characters after the last `'@'` (the whole list when there is none):
`urllib`'s userinfo stripping for the hostname. -/
def afterLastAt (cs : List Char) : List Char :=
  cs.foldl (fun acc c => if c == '@' then [] else acc ++ [c]) []

/-- The fields of `urllib.parse.urlparse` that `extract_video_id` reads. -/
structure ParsedUrl where
  hostname : Option String
  path : String
  query : String
deriving DecidableEq

/-- `urllib.parse.urlparse`, modeled for ASCII URLs: the netloc sits between
`"://"` and the next `/`, `?` or end; the path runs to the first `?`; the
query follows it; the fragment after `#` is split off; the hostname is the
lowercased netloc without userinfo and port, `none` when empty or when the
URL has no `"://"` (in which case everything is path/query). -/
def pyUrlparse (url : String) : ParsedUrl :=
  let cs := url.data.takeWhile (fun c => c != '#')
  match splitAtSub [':', '/', '/'] cs with
  | some (_, rest) =>
    let netloc := rest.takeWhile (fun c => c != '/' && c != '?')
    let afterNetloc := rest.drop netloc.length
    let path := afterNetloc.takeWhile (fun c => c != '?')
    let query := afterNetloc.drop (path.length + 1)
    let host := ((afterLastAt netloc).takeWhile (fun c => c != ':')).map Char.toLower
    ⟨if host.isEmpty then none else some (String.mk host),
     String.mk path, String.mk query⟩
  | none =>
    let path := cs.takeWhile (fun c => c != '?')
    ⟨none, String.mk path, String.mk (cs.drop (path.length + 1))⟩

/-- Split a character list on every occurrence of `sep`, keeping empty
chunks (Python `str.split(sep)`). -/
def splitOnCharAux (sep : Char) : List Char → List Char → List (List Char)
  | [], acc => [acc.reverse]
  | c :: rest, acc =>
    if c == sep then acc.reverse :: splitOnCharAux sep rest []
    else splitOnCharAux sep rest (c :: acc)

/-- `urllib.parse.parse_qsl` with its defaults: split the query on `&`,
partition each field at its first `=`, and drop fields with no `=` or with an
empty value (`keep_blank_values=False`).  Percent-decoding is not modeled (no
claim exercises an encoded query). -/
def parseQsl (q : String) : List (String × String) :=
  (splitOnCharAux '&' q.data []).filterMap fun field =>
    match splitAtSub ['='] field with
    | some (name, value) =>
      if value.isEmpty then none else some (String.mk name, String.mk value)
    | none => none

/-- `parse_qs(query)[key][0]`: first value listed for `key`, or `none` when
the key is absent (where Python raises `KeyError`). -/
def qsLookup (q : String) (key : String) : Option String :=
  ((parseQsl q).find? (fun p => p.1 == key)).map (fun p => p.2)

/-- The regex class `[0-9A-Za-z_-]` of the fallback video-id pattern. -/
def idChar (c : Char) : Bool := c.isAlphanum || c == '_' || c == '-'

/-- `re.search(r'(?:v=|\/)([0-9A-Za-z_-]{11}).*', url)`: scan left to right;
at each position try `v=` then `/`, each followed by exactly 11 id
characters; the trailing `.*` always matches and is dropped. -/
def findIdToken : List Char → Option String
  | [] => none
  | c :: rest =>
    if c == 'v' && rest.headD ' ' == '=' &&
        ((rest.drop 1).take 11).length == 11 && ((rest.drop 1).take 11).all idChar then
      some (String.mk ((rest.drop 1).take 11))
    else if c == '/' && (rest.take 11).length == 11 && (rest.take 11).all idChar then
      some (String.mk (rest.take 11))
    else findIdToken rest

/-- `YouTubeCommentScraper.extract_video_id`.  The youtube.com host with path
`/watch` returns `parse_qs(query)['v'][0]` — raising `KeyError('v')` when the
query has no usable `v` field; the youtu.be host returns the path after the
leading slash; everything else (including a youtube.com URL whose path is not
`/watch`) falls through to the regex search, and a failed search raises the
`ValueError`. -/
def extractVideoId (url : String) : Except PyErr String :=
  let p := pyUrlparse url
  if (p.hostname = some "youtube.com" ∨ p.hostname = some "www.youtube.com") ∧
      p.path = "/watch" then
    match qsLookup p.query "v" with
    | some v => .ok v
    | none => .error (.keyError "v")
  else if p.hostname = some "youtu.be" then
    .ok (String.mk (p.path.data.drop 1))
  else
    match findIdToken url.data with
    | some found => .ok found
    | none => .error (.valueError ("Could not extract video ID from URL: " ++ url))

/-! ## Comment scraping (`YouTubeCommentScraper.scrape_comments`)

Timestamps are embedded as minutes (`ℤ`); `datetime.now()` is the injected
parameter `now`, and every `random.*` draw comes from an injected
`RandSrc`. -/

/-- The `YouTubeComment` dataclass. -/
structure YouTubeComment where
  comment_id : String
  author : String
  text : String
  likes : ℕ
  timestamp : ℤ
  sentiment_score : ℚ
  sentiment_label : String
  reply_count : ℕ
  is_reply : Bool
  parent_id : Option String
deriving DecidableEq, Inhabited

/-- The fixed curated table `political_comments` of
`_generate_mock_comments`, in source order. -/
def politicalComments : List String :=
  ["Excellent analysis! This really breaks down the complex issues clearly.",
   "I disagree with some of the conclusions drawn here. More research needed.",
   "Thank you for explaining this so well. Very informative content.",
   "This perspective is interesting but I think there are other factors to consider.",
   "Great work! Your political insights are always spot on.",
   "I'm not convinced by this argument. What about the opposing viewpoint?",
   "This video opened my eyes to issues I hadn't considered before.",
   "The data presented here seems incomplete. Can you provide sources?",
   "Finally, someone who explains politics without bias. Refreshing!",
   "This is exactly the kind of analysis we need more of in media.",
   "I appreciate the balanced approach to such a divisive topic.",
   "Some good points, but I think you're missing the bigger picture.",
   "Your research is thorough and your presentation is clear. Well done!",
   "I wish more political commentators were as thoughtful as this.",
   "This analysis helps me understand the complexity of the situation.",
   "Great job breaking down the policy implications step by step.",
   "I don't usually comment but this deserved recognition. Excellent work!",
   "This is why I subscribe to this channel. Quality content always.",
   "The graphics and explanations make complex topics accessible. Thank you!",
   "I shared this with my family. Everyone should watch this analysis.",
   "Looking forward to your take on the upcoming policy changes.",
   "This kind of informed discussion is what democracy needs.",
   "Your ability to remain objective while explaining is commendable.",
   "This video should be shown in political science classes.",
   "I learned more in these 10 minutes than from hours of news coverage.",
   "The research behind this content is evident. Keep up the great work!",
   "Finally someone who doesn't just echo talking points. Original thinking!",
   "This analysis will help me make more informed decisions. Thank you.",
   "Your channel has become my go-to source for political analysis.",
   "The way you connect different policy areas is brilliant."]

/-- The `comment_templates` table. -/
def commentTemplates : List String :=
  ["As a {profession}, I find this analysis {sentiment}.",
   "From my experience in {field}, this {agreement} with what I've observed.",
   "The {aspect} you mentioned about {topic} is {evaluation}.",
   "I've been following {subject} for years and this {quality} explanation.",
   "What about the impact on {group}? That seems {importance}."]

/-- Vocabulary `professions`. -/
def professionChoices : List String :=
  ["teacher", "student", "researcher", "journalist", "analyst", "citizen",
   "voter", "activist"]

/-- Vocabulary `fields`. -/
def fieldChoices : List String :=
  ["policy", "government", "academia", "journalism", "research", "public service"]

/-- Vocabulary `sentiments`. -/
def sentimentChoices : List String :=
  ["very insightful", "somewhat problematic", "quite helpful",
   "rather concerning", "extremely valuable"]

/-- Vocabulary `agreements`. -/
def agreementChoices : List String :=
  ["aligns", "conflicts", "partially matches", "strongly supports", "challenges"]

/-- Vocabulary `aspects`. -/
def aspectChoices : List String :=
  ["point", "argument", "data", "conclusion", "perspective", "analysis"]

/-- Vocabulary `topics` (also used for the `subject` placeholder). -/
def topicChoices : List String :=
  ["policy", "governance", "democracy", "legislation", "reform", "leadership"]

/-- Vocabulary `evaluations`. -/
def evaluationChoices : List String :=
  ["spot on", "questionable", "well researched", "needs more context", "brilliant"]

/-- Vocabulary `qualities`. -/
def qualityChoices : List String :=
  ["provides excellent", "offers decent", "gives poor", "delivers outstanding",
   "presents adequate"]

/-- Vocabulary `groups`. -/
def groupChoices : List String :=
  ["young voters", "working families", "small businesses", "rural communities",
   "urban areas"]

/-- Vocabulary `importances`. -/
def importanceChoices : List String :=
  ["very important", "often overlooked", "critical to address", "worth considering"]

/-- Fuel-driven replacement of every occurrence of `pat` (nonempty) by
`repl`; the fuel is an upper bound on the scanned characters, so the
recursion is structural and the function evaluates in the kernel. -/
def replaceGo (pat repl : List Char) : ℕ → List Char → List Char
  | 0, cs => cs
  | _ + 1, [] => []
  | fuel + 1, c :: rest =>
    if pat.isPrefixOf (c :: rest) && !pat.isEmpty then
      repl ++ replaceGo pat repl fuel ((c :: rest).drop pat.length)
    else c :: replaceGo pat repl fuel rest

/-- Replace every occurrence of `pat` in `s` by `repl`. -/
def pyReplace (s pat repl : String) : String :=
  String.mk (replaceGo pat.data repl.data s.data.length s.data)

/-- `template.format(...)` of `_generate_mock_comments`: substitute each
placeholder by the chosen filler term (each placeholder occurs at most once
per template, so plain textual replacement models `str.format`). -/
def fillTemplate (t profession sentiment fieldTerm agreement aspect topic
    evaluation quality subject group importance : String) : String :=
  pyReplace (pyReplace (pyReplace (pyReplace (pyReplace (pyReplace (pyReplace
    (pyReplace (pyReplace (pyReplace (pyReplace t
      "{profession}" profession) "{sentiment}" sentiment) "{field}" fieldTerm)
      "{agreement}" agreement) "{aspect}" aspect) "{topic}" topic)
      "{evaluation}" evaluation) "{quality}" quality) "{subject}" subject)
      "{group}" group) "{importance}" importance

/-- The injected source of randomness for `_generate_mock_comments`: one
field per kind of `random.*` draw, indexed by the loop iteration.
`choice` maps (iteration, slot, list length) to a chosen index, reduced
modulo the length so every draw is valid. -/
structure RandSrc where
  baseLikes : ℕ → ℕ
  baseMinutes : ℕ → ℕ
  baseReply : ℕ → ℕ
  choice : ℕ → ℕ → ℕ → ℕ
  tmplLikes : ℕ → ℕ
  tmplMinutes : ℕ → ℕ
  tmplReply : ℕ → ℕ
  userNum : ℕ → ℕ

/-- `random.choice(options)` for the `i`-th template comment, drawing slot
`slot`. -/
def pickChoice (rng : RandSrc) (i slot : ℕ) (options : List String) : String :=
  options.getD (rng.choice i slot options.length % options.length) ""

/-- The text of the `i`-th template-generated comment. -/
def mkTemplateText (rng : RandSrc) (i : ℕ) : String :=
  fillTemplate (pickChoice rng i 0 commentTemplates)
    (pickChoice rng i 1 professionChoices)
    (pickChoice rng i 2 sentimentChoices)
    (pickChoice rng i 3 fieldChoices)
    (pickChoice rng i 4 agreementChoices)
    (pickChoice rng i 5 aspectChoices)
    (pickChoice rng i 6 topicChoices)
    (pickChoice rng i 7 evaluationChoices)
    (pickChoice rng i 8 qualityChoices)
    (pickChoice rng i 9 topicChoices)
    (pickChoice rng i 10 groupChoices)
    (pickChoice rng i 11 importanceChoices)

/-- One curated ("base") mock comment: entry `i` of `political_comments`,
scored by the sentiment analyzer. -/
def mkBaseComment (textblob : Option (String → ℚ × ℚ)) (videoId : String)
    (rng : RandSrc) (now : ℤ) (p : ℕ × String) : YouTubeComment :=
  let s := analyzeSentiment textblob p.2
  ⟨"mock_" ++ videoId ++ "_" ++ toString p.1, "Viewer" ++ toString (p.1 + 1),
   p.2, rng.baseLikes p.1, now - rng.baseMinutes p.1, s.score, s.label,
   rng.baseReply p.1, false, none⟩

/-- The `i`-th template-generated mock comment (`base_comments + i` is its id
index). -/
def mkTemplateComment (textblob : Option (String → ℚ × ℚ)) (videoId : String)
    (rng : RandSrc) (now : ℤ) (baseCount i : ℕ) : YouTubeComment :=
  let text := mkTemplateText rng i
  let s := analyzeSentiment textblob text
  ⟨"mock_" ++ videoId ++ "_" ++ toString (baseCount + i),
   "User" ++ toString (rng.userNum i), text, rng.tmplLikes i,
   now - rng.tmplMinutes i, s.score, s.label, rng.tmplReply i, false, none⟩

/-- `YouTubeCommentScraper._generate_mock_comments`: the first
`min(len(political_comments), max_comments)` curated comments in table
order, then template comments filling up to `max_comments`, finally sliced
to `max_comments`. -/
def genMockComments (textblob : Option (String → ℚ × ℚ)) (videoId : String)
    (maxComments : ℕ) (rng : RandSrc) (now : ℤ) : List YouTubeComment :=
  let base := (politicalComments.take maxComments).enum.map
    (mkBaseComment textblob videoId rng now)
  let extra := (List.range (maxComments - base.length)).map
    (mkTemplateComment textblob videoId rng now base.length)
  (base ++ extra).take maxComments

/-- `YouTubeCommentScraper._scrape_comments_api`, abstracted over the
comments accumulated from the paginated API responses: the method ends with
`return comments[:max_comments]`. -/
def scrapeCommentsApi (fetched : List YouTubeComment) (maxComments : ℕ) :
    List YouTubeComment :=
  fetched.take maxComments

/-- `YouTubeCommentScraper.scrape_comments`.  `apiTier` is `none` when no API
key / client library is configured, `some (.error _)` when the API tier
raises (the exception is caught and the next tier tried), and
`some (.ok fetched)` on success.  The Selenium tier
(`_scrape_comments_selenium`) explicitly defers to the mock generator, as
does the final fallback, so every non-API path produces
`_generate_mock_comments`. -/
def scrapeComments (apiTier : Option (Except Unit (List YouTubeComment)))
    (hasSelenium : Bool) (textblob : Option (String → ℚ × ℚ))
    (videoId : String) (maxComments : ℕ) (rng : RandSrc) (now : ℤ) :
    List YouTubeComment :=
  match apiTier with
  | some (.ok fetched) => scrapeCommentsApi fetched maxComments
  | some (.error _) => genMockComments textblob videoId maxComments rng now
  | none =>
    match hasSelenium with
    | true => genMockComments textblob videoId maxComments rng now
    | false => genMockComments textblob videoId maxComments rng now

/-! ## Sentiment analytics (`get_sentiment_analytics` / `_generate_mock_analytics`)

A stored top-level comment row as returned (newest first) by the SQL query
`SELECT sentiment_score, sentiment_label, likes, timestamp, text, author`.
The timestamp is kept opaque (the analytics only copy it). -/

/-- One row of `comments_data`. -/
structure CommentRow where
  sentiment_score : ℚ
  sentiment_label : String
  likes : ℕ
  timestamp : String
  text : String
  author : String
deriving DecidableEq, Inhabited

/-- `Counter(labels)[l]`: occurrences of label `l` (0 when absent). -/
def labelCount (rows : List CommentRow) (l : String) : ℕ :=
  (rows.map (fun r => r.sentiment_label)).count l

/-- `(label_counts[l] / len(labels)) * 100`. -/
def pctLabel (rows : List CommentRow) (l : String) : ℚ :=
  (labelCount rows l : ℚ) / (rows.length : ℚ) * 100

/-- `sum(s * l for s, l in zip(sentiments, likes)) / sum(likes) if sum(likes) > 0 else 0`. -/
def weightedSentiment (rows : List CommentRow) : ℚ :=
  if 0 < (rows.map (fun r => r.likes)).sum then
    (rows.map (fun r => r.sentiment_score * (r.likes : ℚ))).sum /
      ((((rows.map (fun r => r.likes)).sum : ℕ)) : ℚ)
  else 0

/-- Python `range(start, stop, step)` for a positive step, driven by the fuel
`stop - start` (an upper bound on the iteration count) so that the recursion
is structural. -/
def pyRangeGo (step : ℕ) : ℕ → ℕ → ℕ → List ℕ
  | 0, _, _ => []
  | fuel + 1, start, stop =>
    if start < stop then start :: pyRangeGo step fuel (start + step) stop
    else []

/-- Python `range(start, stop, step)` (positive step). -/
def pyRange (start stop step : ℕ) : List ℕ :=
  pyRangeGo step (stop - start) start stop

/-- One `time_sentiment` bucket: the batch is `comments_data[i:i+10]`, the
bucket holds the first batch member's timestamp (`batch[0][3]`; the start
index is always in range, so the batch is nonempty) and the batch's mean
score. -/
def trendBucket (rows : List CommentRow) (i : ℕ) : String × ℚ :=
  let batch := (rows.drop i).take 10
  ((batch.headD default).timestamp,
   (batch.map (fun r => r.sentiment_score)).sum / (batch.length : ℚ))

/-- The `time_sentiment` loop of `get_sentiment_analytics`:
`for i in range(0, len(comments_data), max(1, len(comments_data) // 10))`
over width-10 slices. -/
def timeTrend (rows : List CommentRow) : List (String × ℚ) :=
  (pyRange 0 rows.length (max 1 (rows.length / 10))).map (trendBucket rows)

/-- Round-half-to-even on rationals (Python `round` at spec level). -/
def bankersRound (q : ℚ) : ℤ :=
  let n := ⌊q⌋
  let frac := q - (n : ℚ)
  if frac < 1/2 then n
  else if 1/2 < frac then n + 1
  else if n % 2 = 0 then n else n + 1

/-- Python `round(q, d)` where `f = 10^d`. -/
def pyRoundScale (f : ℚ) (q : ℚ) : ℚ := ((bankersRound (q * f) : ℤ) : ℚ) / f

/-- Python `round(q, 1)`. -/
def pyRound1 (q : ℚ) : ℚ := pyRoundScale 10 q

/-- Python `round(q, 2)`. -/
def pyRound2 (q : ℚ) : ℚ := pyRoundScale 100 q

/-- Python `round(q, 3)`. -/
def pyRound3 (q : ℚ) : ℚ := pyRoundScale 1000 q

/-- The scalar draws of `_generate_mock_analytics`, one field per `random.*`
call (`totalC` from `randint(50, 200)`, `avgS` from `uniform(-0.5, 0.7)`,
`wS` from `uniform(-0.3, 0.8)`, `posP` from `uniform(35, 65)`, `negP` from
`uniform(15, 35)`, `neuP` from `uniform(20, 40)`, `engage` from
`uniform(3, 15)`, and the per-bucket trend draws). -/
structure MockDraws where
  totalC : ℕ
  avgS : ℚ
  wS : ℚ
  posP : ℚ
  negP : ℚ
  neuP : ℚ
  tsIso : ℕ → String
  trendS : ℕ → ℚ
  engage : ℚ

/-- The analytics record; the fields the claims are about
(`sentiment_distribution` counts and `top_words` are not modeled — no claim
mentions them; the distribution percentages are). -/
structure Analytics where
  total_comments : ℕ
  avg_sentiment : ℚ
  weighted_sentiment : ℚ
  positive_percentage : ℚ
  negative_percentage : ℚ
  neutral_percentage : ℚ
  time_trend : List (String × ℚ)
  engagement_score : ℚ

/-- `_generate_mock_analytics`: every scalar is an independent random draw,
rounded; the mock trend runs `for i in range(10, 0, -1)`. -/
def genMockAnalytics (d : MockDraws) : Analytics :=
  ⟨d.totalC, pyRound3 d.avgS, pyRound3 d.wS, pyRound1 d.posP, pyRound1 d.negP,
   pyRound1 d.neuP,
   ((List.range 10).map (fun j => 10 - j)).map
     (fun i => (d.tsIso i, pyRound2 (d.trendS i))),
   pyRound1 d.engage⟩

/-- `get_sentiment_analytics`: without sqlite, or when the store has no
top-level rows for the video, return the mock analytics; otherwise compute
the real analytics over the newest-first rows.  The engagement score is
`sum(likes) / len(likes)` (the rows are nonempty on this branch). -/
def getSentimentAnalytics (hasSqlite : Bool) (rows : List CommentRow)
    (d : MockDraws) : Analytics :=
  if !hasSqlite then genMockAnalytics d
  else if rows.isEmpty then genMockAnalytics d
  else
    ⟨rows.length,
     (rows.map (fun r => r.sentiment_score)).sum / (rows.length : ℚ),
     weightedSentiment rows,
     pctLabel rows "positive", pctLabel rows "negative", pctLabel rows "neutral",
     timeTrend rows,
     ((rows.map (fun r => r.likes)).sum : ℚ) / (rows.length : ℚ)⟩

/-! ## Broadcast (`YouTubeAnalyticsServer.broadcast_update`)

`await asyncio.gather(*[client.send(message) for client in self.clients],
return_exceptions=True)` attempts one send per connected client and collects
each outcome — a per-client success or exception value — without any
exception escaping the call.  The embedding returns that list of per-client
outcomes; the guard `if self.clients and HAS_WEBSOCKETS` is kept. -/

/-- `broadcast_update`, abstracted over the subscriber handle type `γ`, the
failure type `ε`, and each subscriber's send outcome. -/
def broadcastUpdate {γ ε : Type} (hasWebsockets : Bool) (clients : List γ)
    (send : γ → Except ε Unit) : List (Except ε Unit) :=
  if !clients.isEmpty && hasWebsockets then clients.map send else []

/-- A concrete send function whose delivery to subscriber `1` fails. -/
def sendEx : ℕ → Except Unit Unit :=
  fun n => if n = 1 then .error () else .ok ()

/-! ## Spec-side definitions and concrete data used by witnesses -/

/-- The spec's clamp of a score to the interval `[-0.8, 0.8]` (this is the
spec's phrasing; the code applies only a one-sided `min`/`max`, and the
lexical-scoring theorem shows the two agree). -/
def specClamp (x : ℚ) : ℚ := max (-(4/5)) (min (4/5) x)

/-- A concrete stored comment row. -/
def rowA : CommentRow := ⟨1/2, "positive", 3, "t0", "good stuff", "alice"⟩

/-- A concrete stored comment row. -/
def rowB : CommentRow := ⟨-(1/4), "negative", 0, "t1", "bad stuff", "bob"⟩

/-- A concrete stored comment row. -/
def rowC : CommentRow := ⟨0, "neutral", 1, "t2", "meh", "carol"⟩

/-- Concrete mock-analytics draws with the percentage draws at 40 / 20 / 30
(inside their uniform ranges). -/
def mockDrawsEx : MockDraws := ⟨100, 0, 0, 40, 20, 30, fun _ => "", fun _ => 0, 5⟩

/-- Concrete mock-analytics draws at the low end of each uniform percentage
range: 35 / 15 / 20. -/
def mockDrawsCex : MockDraws := ⟨100, 0, 0, 35, 15, 20, fun _ => "", fun _ => 0, 5⟩

/-! ## Theorems -/

/-- C4: ID extraction recognizes the canonical watch form, the short-link
form, and the 11-character regex fallback, and fails with the
`InvalidReference` error (the `ValueError` of `extract_video_id`) when none
match: the two scenario URLs extract `O6DTtVOPwEU`, and the example.com URL
fails. -/
theorem extract_video_id_scenarios :
    extractVideoId "https://www.youtube.com/watch?v=O6DTtVOPwEU&ab_channel=X" =
      Except.ok "O6DTtVOPwEU" ∧
    extractVideoId "https://youtu.be/O6DTtVOPwEU" = Except.ok "O6DTtVOPwEU" ∧
    extractVideoId "https://example.com/no-id-here" =
      Except.error (PyErr.valueError
        "Could not extract video ID from URL: https://example.com/no-id-here") :=
  ⟨rfl, rfl, rfl⟩

/-- C10: a youtube.com URL with path exactly `/watch` but no usable `v`
query parameter makes `extract_video_id` raise `KeyError('v')` from the
`parse_qs(...)['v']` lookup — it neither reaches the regex fallback nor
raises the `ValueError` used for unrecognized URLs. -/
theorem watch_without_v_keyerror :
    extractVideoId "https://www.youtube.com/watch" =
      Except.error (PyErr.keyError "v") := rfl

/-- C9: the detected emotion tries the five fixed keyword sets in the fixed
priority order anger, joy, fear, sadness, surprise — the first set with a
keyword occurring in the text wins — and is `neutral` when none match. -/
theorem emotion_priority_spec (t : String) :
    detectEmotion t =
      (if angerWords.any (fun k => containsSub t k) then "anger"
       else if joyWords.any (fun k => containsSub t k) then "joy"
       else if fearWords.any (fun k => containsSub t k) then "fear"
       else if sadnessWords.any (fun k => containsSub t k) then "sadness"
       else if surpriseWords.any (fun k => containsSub t k) then "surprise"
       else "neutral") := rfl

/-- C7: the like-weighted sentiment equals Σ(score·likes) / Σ(likes) — in
particular it is exactly `0`, not an error, whenever Σ(likes) = 0 (division
by zero is `0` in `ℚ`, matching the explicit `else 0` branch of the code). -/
theorem weighted_sentiment_spec (rows : List CommentRow) :
    weightedSentiment rows =
      (rows.map (fun r => r.sentiment_score * (r.likes : ℚ))).sum /
        ((((rows.map (fun r => r.likes)).sum : ℕ)) : ℚ) ∧
    ((rows.map (fun r => r.likes)).sum = 0 → weightedSentiment rows = 0) := by
  constructor
  · unfold weightedSentiment
    split
    · rfl
    · rename_i h
      have h0 : (rows.map (fun r => r.likes)).sum = 0 := by omega
      rw [h0]
      norm_num
  · intro h
    unfold weightedSentiment
    rw [h]
    norm_num

/-- A nonempty comment set in which every comment has zero likes: the
like-weighted sentiment is exactly 0. -/
theorem weighted_sentiment_spec_w :
    weightedSentiment
      [⟨1, "positive", 0, "t0", "x", "a"⟩, ⟨-(1/2), "negative", 0, "t1", "y", "b"⟩] = 0 :=
  (weighted_sentiment_spec _).2 (by decide)

/-- C8: a broadcast attempts delivery to every currently connected
subscriber independently: the outcome recorded for the `i`-th subscriber is
exactly its own send outcome, whatever the other subscribers' sends do, and
the call is a total function — per-subscriber failures are returned as
values (`asyncio.gather(..., return_exceptions=True)`), never raised past
the call. -/
theorem broadcast_isolation {γ ε : Type} (hasWs : Bool) (clients : List γ)
    (send : γ → Except ε Unit) (i : ℕ) (h1 : hasWs = true) (h2 : clients ≠ []) :
    (broadcastUpdate hasWs clients send)[i]? = clients[i]?.map send := by
  unfold broadcastUpdate
  have hg : (!clients.isEmpty && hasWs) = true := by
    rw [h1]
    simpa [List.isEmpty_iff] using h2
  rw [if_pos hg]
  exact List.getElem?_map send clients i

/-- A subscriber whose send fails mid-broadcast (subscriber 1) does not
prevent delivery to the remaining subscriber (subscriber 2) in the same
call. -/
theorem broadcast_isolation_w :
    (broadcastUpdate true [0, 1, 2] sendEx)[2]? = some (Except.ok ()) ∧
    (broadcastUpdate true [0, 1, 2] sendEx)[1]? = some (Except.error ()) := by
  constructor
  · rw [broadcast_isolation true [0, 1, 2] sendEx 2 rfl (by decide)]
    rfl
  · rw [broadcast_isolation true [0, 1, 2] sendEx 1 rfl (by decide)]
    rfl

/-- The positive-hit count never exceeds the word count. -/
theorem posHits_le (t : String) : posHits t ≤ (pySplit t).length :=
  List.length_filter_le _ _

/-- The negative-hit count never exceeds the word count. -/
theorem negHits_le (t : String) : negHits t ≤ (pySplit t).length :=
  List.length_filter_le _ _

/-- The political-affinity score always lies in `[-1, 1]`. -/
theorem politicalSentiment_bounds (t : String) :
    -1 ≤ politicalSentiment t ∧ politicalSentiment t ≤ 1 := by
  by_cases h : (pySplit t).length = 0
  · simp [politicalSentiment, h]
  · have hn : (0 : ℚ) < (((pySplit t).length : ℕ) : ℚ) := by
      exact_mod_cast Nat.pos_of_ne_zero h
    have hp : (posHits t : ℚ) ≤ (((pySplit t).length : ℕ) : ℚ) := by
      exact_mod_cast posHits_le t
    have hq : (negHits t : ℚ) ≤ (((pySplit t).length : ℕ) : ℚ) := by
      exact_mod_cast negHits_le t
    have hp0 : (0 : ℚ) ≤ (posHits t : ℚ) := Nat.cast_nonneg _
    have hq0 : (0 : ℚ) ≤ (negHits t : ℚ) := Nat.cast_nonneg _
    simp only [politicalSentiment, if_neg h]
    constructor
    · rw [le_div_iff hn]
      linarith
    · rw [div_le_one hn]
      linarith

/-- Shape facts about the keyword path, shared by the claims about both
scoring strategies: label in the three-label set, score in `[-1, 1]`,
confidence equal to `|score|`. -/
theorem keywords_contract (t : String) :
    ((analyzeWithKeywords t).label = "positive" ∨
     (analyzeWithKeywords t).label = "negative" ∨
     (analyzeWithKeywords t).label = "neutral") ∧
    -1 ≤ (analyzeWithKeywords t).score ∧ (analyzeWithKeywords t).score ≤ 1 ∧
    (analyzeWithKeywords t).confidence = |(analyzeWithKeywords t).score| := by
  simp only [analyzeWithKeywords]
  split_ifs with h1 h2
  · have hd : (negHits t : ℚ) + 1 ≤ (posHits t : ℚ) := by exact_mod_cast h1
    refine ⟨Or.inl rfl, ?_, ?_, rfl⟩
    · have hv : (2 : ℚ)/5 ≤ 3/10 + ((posHits t : ℚ) - (negHits t : ℚ)) * (1/10) := by
        linarith
      have hmin : (2 : ℚ)/5 ≤
          min (4/5) (3/10 + ((posHits t : ℚ) - (negHits t : ℚ)) * (1/10)) :=
        le_min (by norm_num) hv
      simp only
      linarith
    · exact le_trans (min_le_left _ _) (by norm_num)
  · have hd : (posHits t : ℚ) + 1 ≤ (negHits t : ℚ) := by exact_mod_cast h2
    refine ⟨Or.inr (Or.inl rfl), ?_, ?_, rfl⟩
    · exact le_trans (by norm_num) (le_max_left _ _)
    · have hv : -(3/10) - ((negHits t : ℚ) - (posHits t : ℚ)) * (1/10) ≤ -(2 : ℚ)/5 := by
        linarith
      have hmax : max (-(4/5))
          (-(3/10) - ((negHits t : ℚ) - (posHits t : ℚ)) * (1/10)) ≤ (-(2 : ℚ))/5 :=
        max_le (by norm_num) hv
      simp only
      linarith
  · exact ⟨Or.inr (Or.inr rfl), by norm_num, by norm_num, by simp⟩

/-- Shape facts about the TextBlob path, given the collaborator's polarity
contract. -/
theorem textblob_contract (pol subj : ℚ) (t : String)
    (hlo : -1 ≤ pol) (hhi : pol ≤ 1) :
    ((analyzeWithTextblob pol subj t).label = "positive" ∨
     (analyzeWithTextblob pol subj t).label = "negative" ∨
     (analyzeWithTextblob pol subj t).label = "neutral") ∧
    -1 ≤ (analyzeWithTextblob pol subj t).score ∧
    (analyzeWithTextblob pol subj t).score ≤ 1 ∧
    (analyzeWithTextblob pol subj t).confidence =
      |(analyzeWithTextblob pol subj t).score| := by
  obtain ⟨hps1, hps2⟩ := politicalSentiment_bounds t
  simp only [analyzeWithTextblob]
  refine ⟨?_, by linarith, by linarith, trivial⟩
  split_ifs
  · exact Or.inl rfl
  · exact Or.inr (Or.inl rfl)
  · exact Or.inr (Or.inr rfl)

/-- C3: for every input text (empty string included) the sentiment scorer
returns a label in {positive, negative, neutral}, a score in `[-1, 1]` and
confidence `= |score|`, under both strategies: the lexical-only one
(`textblob = none`) and the NLP-augmented one (`textblob = some f`, the
collaborator's polarity lying in `[-1, 1]` per its contract).  The embedding
is a total function, which models "never raises". -/
theorem sentiment_contract (tb : Option (String → ℚ × ℚ)) (text : String)
    (hpol : ∀ f s, tb = some f → -1 ≤ (f s).1 ∧ (f s).1 ≤ 1) :
    ((analyzeSentiment tb text).label = "positive" ∨
     (analyzeSentiment tb text).label = "negative" ∨
     (analyzeSentiment tb text).label = "neutral") ∧
    -1 ≤ (analyzeSentiment tb text).score ∧
    (analyzeSentiment tb text).score ≤ 1 ∧
    (analyzeSentiment tb text).confidence = |(analyzeSentiment tb text).score| := by
  match tb with
  | none => exact keywords_contract (cleanText text)
  | some f =>
    exact textblob_contract (f (cleanText text)).1 (f (cleanText text)).2
      (cleanText text) (hpol f (cleanText text) rfl).1 (hpol f (cleanText text) rfl).2

/-- The scorer contract instantiated at the empty string under the
lexical-only strategy: label `neutral`, score 0, in range. -/
theorem sentiment_contract_w :
    ((analyzeSentiment none "").label = "positive" ∨
     (analyzeSentiment none "").label = "negative" ∨
     (analyzeSentiment none "").label = "neutral") ∧
    -1 ≤ (analyzeSentiment none "").score ∧
    (analyzeSentiment none "").score ≤ 1 ∧
    (analyzeSentiment none "").confidence = |(analyzeSentiment none "").score| :=
  sentiment_contract none "" (fun f s h => Option.noConfusion h)

/-- C6: under the lexical-only strategy, equal hit counts (both zero
included) give label `neutral` and score exactly 0; otherwise the label
follows the sign of the count difference and the score is
±(0.3 + 0.1·excess) clamped to [−0.8, 0.8]; the subjectivity is always
0.5. -/
theorem lexical_scoring_spec (text : String) :
    (analyzeSentiment none text).subjectivity = 1/2 ∧
    (posHits (cleanText text) = negHits (cleanText text) →
      (analyzeSentiment none text).label = "neutral" ∧
      (analyzeSentiment none text).score = 0) ∧
    (negHits (cleanText text) < posHits (cleanText text) →
      (analyzeSentiment none text).label = "positive" ∧
      (analyzeSentiment none text).score =
        specClamp (3/10 + ((posHits (cleanText text) : ℚ) -
          (negHits (cleanText text) : ℚ)) * (1/10))) ∧
    (posHits (cleanText text) < negHits (cleanText text) →
      (analyzeSentiment none text).label = "negative" ∧
      (analyzeSentiment none text).score =
        specClamp (-(3/10 + ((negHits (cleanText text) : ℚ) -
          (posHits (cleanText text) : ℚ)) * (1/10)))) := by
  have hs : analyzeSentiment none text = analyzeWithKeywords (cleanText text) := rfl
  rw [hs]
  refine ⟨?_, ?_, ?_, ?_⟩
  · simp only [analyzeWithKeywords]
    split_ifs <;> rfl
  · intro h
    simp only [analyzeWithKeywords]
    rw [if_neg (by omega), if_neg (by omega)]
    exact ⟨rfl, rfl⟩
  · intro h
    have hd : (negHits (cleanText text) : ℚ) + 1 ≤ (posHits (cleanText text) : ℚ) := by
      exact_mod_cast h
    simp only [analyzeWithKeywords]
    rw [if_pos (by omega)]
    refine ⟨rfl, ?_⟩
    simp only [specClamp]
    rw [max_eq_right]
    exact le_min (by norm_num) (by linarith)
  · intro h
    have hd : (posHits (cleanText text) : ℚ) + 1 ≤ (negHits (cleanText text) : ℚ) := by
      exact_mod_cast h
    simp only [analyzeWithKeywords]
    rw [if_neg (by omega), if_pos (by omega)]
    refine ⟨rfl, ?_⟩
    simp only [specClamp]
    rw [min_eq_right (by linarith)]
    congr 1
    ring

/-- The lexical scoring formula instantiated at a concrete text with two
positive hits and one negative hit: label `positive`, score
0.3 + 0.1 = 0.4. -/
theorem lexical_scoring_spec_w :
    (analyzeSentiment none "great great terrible").label = "positive" ∧
    (analyzeSentiment none "great great terrible").score = 2/5 := by
  have hp : posHits (cleanText "great great terrible") = 2 := by decide
  have hn : negHits (cleanText "great great terrible") = 1 := by decide
  have h := (lexical_scoring_spec "great great terrible").2.2.1 (by rw [hp, hn]; omega)
  refine ⟨h.1, h.2.trans ?_⟩
  rw [hp, hn]
  norm_num [specClamp, min_def, max_def]

/-- The synthetic generator always produces exactly `max_comments`
comments: `min(30, max)` curated ones plus `max − min(30, max)` template
ones, then a final slice. -/
theorem genMockComments_length (tb : Option (String → ℚ × ℚ)) (vid : String)
    (m : ℕ) (rng : RandSrc) (now : ℤ) :
    (genMockComments tb vid m rng now).length = m := by
  unfold genMockComments
  simp only [List.length_take, List.length_append, List.length_map,
    List.enum_length, List.length_range]
  have h30 : politicalComments.length = 30 := rfl
  omega

/-- The texts of the generated comments: the curated table (as far as
`max_comments` reaches) in its fixed order, then the template texts in
generation order. -/
theorem genMockComments_texts (tb : Option (String → ℚ × ℚ)) (vid : String)
    (m : ℕ) (rng : RandSrc) (now : ℤ) :
    (genMockComments tb vid m rng now).map (fun c => c.text) =
      politicalComments.take m ++
        (List.range (m - (politicalComments.take m).length)).map
          (mkTemplateText rng) := by
  unfold genMockComments
  have hlen :
      (((politicalComments.take m).enum.map (mkBaseComment tb vid rng now)) ++
        (List.range (m - ((politicalComments.take m).enum.map
          (mkBaseComment tb vid rng now)).length)).map
          (mkTemplateComment tb vid rng now
            ((politicalComments.take m).enum.map
              (mkBaseComment tb vid rng now)).length)).length = m := by
    simp only [List.length_take, List.length_append, List.length_map,
      List.enum_length, List.length_range]
    have h30 : politicalComments.length = 30 := rfl
    omega
  rw [List.take_of_length_le (le_of_eq hlen)]
  rw [List.map_append, List.map_map, List.map_map]
  congr 1
  · have hcomp : ((fun c : YouTubeComment => c.text) ∘ mkBaseComment tb vid rng now) =
        Prod.snd := funext fun p => rfl
    rw [hcomp, List.enum_map_snd]
  · simp only [List.length_map, List.enum_length]
    rfl

/-- C5: `scrape_comments` never returns more than `max_comments` comments in
any tier configuration; with no real tier available (no API key/client,
regardless of Selenium, which defers to the generator anyway) it returns the
synthetic result, which has exactly `min(max_count, available) = max_count`
comments (template availability is unbounded): the curated comments first in
their stable fixed order, then the template-generated comments in generation
order. -/
theorem get_comments_cap (tb : Option (String → ℚ × ℚ))
    (apiTier : Option (Except Unit (List YouTubeComment))) (hasSel : Bool)
    (vid : String) (m : ℕ) (rng : RandSrc) (now : ℤ) :
    (scrapeComments apiTier hasSel tb vid m rng now).length ≤ m ∧
    scrapeComments none hasSel tb vid m rng now = genMockComments tb vid m rng now ∧
    (genMockComments tb vid m rng now).length = m ∧
    (genMockComments tb vid m rng now).map (fun c => c.text) =
      politicalComments.take m ++
        (List.range (m - (politicalComments.take m).length)).map
          (mkTemplateText rng) := by
  refine ⟨?_, ?_, genMockComments_length tb vid m rng now,
    genMockComments_texts tb vid m rng now⟩
  · match apiTier with
    | some (.ok fetched) => exact List.length_take_le m fetched
    | some (.error e) => exact le_of_eq (genMockComments_length tb vid m rng now)
    | none =>
      cases hasSel <;> exact le_of_eq (genMockComments_length tb vid m rng now)
  · cases hasSel <;> rfl

/-- Length of `range(start, stop, step)`: the ceiling `(stop - start + step - 1) / step`, for positive step and sufficient fuel. -/
theorem pyRangeGo_length (step : ℕ) (hs : 0 < step) (fuel : ℕ) :
    ∀ start stop, stop - start ≤ fuel →
      (pyRangeGo step fuel start stop).length = (stop - start + step - 1) / step := by
  induction fuel with
  | zero =>
    intro start stop hb
    have h0 : stop - start = 0 := Nat.le_zero.mp hb
    rw [h0]
    simp [pyRangeGo, Nat.div_eq_of_lt (by omega : step - 1 < step)]
  | succ fuel ih =>
    intro start stop hb
    by_cases hlt : start < stop
    · rw [show pyRangeGo step (fuel + 1) start stop =
          start :: pyRangeGo step fuel (start + step) stop from by
        simp [pyRangeGo, hlt]]
      rw [List.length_cons, ih (start + step) stop (by omega)]
      have h1 : stop - (start + step) = stop - start - step := by omega
      rw [h1]
      by_cases hcase : stop - start ≤ step
      · have h2 : stop - start - step = 0 := by omega
        rw [h2]
        have h3 : (0 + step - 1) / step = 0 := Nat.div_eq_of_lt (by omega)
        have h4 : (stop - start + step - 1) / step = 1 :=
          Nat.div_eq_of_lt_le (by omega) (by omega)
        omega
      · have h2 : stop - start - step + step - 1 = stop - start - 1 - step + step := by
          omega
        have h5 : stop - start + step - 1 = stop - start - 1 + step := by omega
        rw [h2, h5, Nat.add_div_right _ hs, Nat.add_div_right _ hs]
        have h7 : (stop - start - 1) / step = (stop - start - 1 - step) / step + 1 := by
          conv_lhs =>
            rw [show stop - start - 1 = stop - start - 1 - step + step from by omega]
          rw [Nat.add_div_right _ hs]
        rw [h7]
    · have h0 : stop - start = 0 := by omega
      rw [h0]
      simp [pyRangeGo, hlt, Nat.div_eq_of_lt (by omega : step - 1 < step)]

/-- Element `k` of `range(start, stop, step)` is `start + k * step` when that is below `stop`. -/
theorem pyRangeGo_get (step : ℕ) (hs : 0 < step) (fuel : ℕ) :
    ∀ start stop k, stop - start ≤ fuel →
      (pyRangeGo step fuel start stop)[k]? =
        if start + k * step < stop then some (start + k * step) else none := by
  induction fuel with
  | zero =>
    intro start stop k hb
    have h0 : stop ≤ start := by omega
    have h1 : stop ≤ start + k * step := le_trans h0 (Nat.le_add_right _ _)
    rw [if_neg (not_lt.mpr h1)]
    simp [pyRangeGo]
  | succ fuel ih =>
    intro start stop k hb
    by_cases hlt : start < stop
    · rw [show pyRangeGo step (fuel + 1) start stop =
          start :: pyRangeGo step fuel (start + step) stop from by
        simp [pyRangeGo, hlt]]
      match k with
      | 0 => simp [hlt]
      | k + 1 =>
        rw [List.getElem?_cons_succ]
        rw [ih (start + step) stop k (by omega)]
        have harr : start + step + k * step = start + (k + 1) * step := by ring
        rw [harr]
    · have h0 : stop ≤ start := by omega
      have h1 : stop ≤ start + k * step := le_trans h0 (Nat.le_add_right _ _)
      rw [if_neg (not_lt.mpr h1)]
      simp [pyRangeGo, hlt]

/-- C1 (amended): for a non-empty stored comment set the time trend of the
analytics snapshot iterates start indices `0, s, 2s, ...` with stride
`s = max(1, ⌊total/10⌋)` (floor, not ceiling); each bucket covers the window
of up to 10 comments from its start index (windows overlap when `s < 10`)
and reports the window's first timestamp and mean score.  The bucket count
is `⌈total/s⌉`; in particular a set of fewer than 10 comments yields one
bucket *per comment*, not one bucket, and the count can exceed 10. -/
theorem time_trend_amended (rows : List CommentRow) (d : MockDraws)
    (hne : rows ≠ []) :
    (getSentimentAnalytics true rows d).time_trend = timeTrend rows ∧
    (timeTrend rows).length =
      (rows.length + max 1 (rows.length / 10) - 1) / max 1 (rows.length / 10) ∧
    (rows.length < 10 → (timeTrend rows).length = rows.length) ∧
    ∀ k : ℕ, (timeTrend rows)[k]? =
      if k * max 1 (rows.length / 10) < rows.length then
        some (trendBucket rows (k * max 1 (rows.length / 10))) else none := by
  have hs : 0 < max 1 (rows.length / 10) :=
    Nat.lt_of_lt_of_le Nat.zero_lt_one (le_max_left 1 _)
  have hemp : rows.isEmpty = false := by
    cases rows with
    | nil => exact absurd rfl hne
    | cons a t => rfl
  refine ⟨?_, ?_, ?_, ?_⟩
  · simp [getSentimentAnalytics, hemp]
  · unfold timeTrend pyRange
    rw [List.length_map, pyRangeGo_length _ hs _ _ _ (le_refl _), Nat.sub_zero]
  · intro h10
    have hsm : max 1 (rows.length / 10) = 1 := by
      rw [Nat.div_eq_of_lt h10]
      omega
    unfold timeTrend pyRange
    rw [List.length_map, pyRangeGo_length _ hs _ _ _ (le_refl _), Nat.sub_zero, hsm]
    omega
  · intro k
    unfold timeTrend pyRange
    rw [List.getElem?_map, pyRangeGo_get _ hs _ _ _ k (le_refl _)]
    simp only [Nat.zero_add]
    split_ifs <;> rfl

/-- The amended trend theorem at a concrete 3-comment set: 3 buckets. -/
theorem time_trend_amended_w : (timeTrend [rowA, rowB, rowC]).length = 3 := by
  have h := time_trend_amended [rowA, rowB, rowC] mockDrawsEx (by decide)
  exact h.2.2.1 (by decide)

/-- C1 counterexample: a 2-comment set (fewer than 10) yields 2 time-trend
buckets, not exactly 1; and a 19-comment set yields 19 buckets, more than
the claimed maximum of 10. -/
theorem time_trend_bucket_cex :
    ([rowA, rowB].length = 2 ∧ (timeTrend [rowA, rowB]).length = 2) ∧
    ((List.replicate 19 rowA).length = 19 ∧
      (timeTrend (List.replicate 19 rowA)).length = 19) := by
  refine ⟨⟨rfl, by decide⟩, rfl, by decide⟩

/-- Round-half-to-even differs from its argument by at most 1. -/
theorem bankersRound_bounds (q : ℚ) :
    q - 1 ≤ (bankersRound q : ℚ) ∧ (bankersRound q : ℚ) ≤ q + 1 := by
  simp only [bankersRound]
  have h1 : (⌊q⌋ : ℚ) ≤ q := Int.floor_le q
  have h2 : q - 1 < (⌊q⌋ : ℚ) := Int.sub_one_lt_floor q
  split_ifs <;> constructor <;> push_cast <;> linarith

/-- `round(q, 1)` differs from `q` by at most one tenth. -/
theorem pyRound1_bounds (q : ℚ) :
    q - 1/10 ≤ pyRound1 q ∧ pyRound1 q ≤ q + 1/10 := by
  obtain ⟨h1, h2⟩ := bankersRound_bounds (q * 10)
  unfold pyRound1 pyRoundScale
  constructor
  · rw [le_div_iff (by norm_num : (0 : ℚ) < 10)]
    linarith
  · rw [div_le_iff (by norm_num : (0 : ℚ) < 10)]
    linarith

/-- A label's count never exceeds the number of rows. -/
theorem labelCount_le (rows : List CommentRow) (l : String) :
    labelCount rows l ≤ rows.length := by
  unfold labelCount
  exact le_trans (List.count_le_length _ _) (le_of_eq (List.length_map _ _))

/-- When every stored label is one of the three produced by the scorer, the
three counts partition the rows. -/
theorem labelCount_partition (rows : List CommentRow)
    (h : ∀ r ∈ rows, r.sentiment_label = "positive" ∨
      r.sentiment_label = "negative" ∨ r.sentiment_label = "neutral") :
    labelCount rows "positive" + labelCount rows "negative" +
      labelCount rows "neutral" = rows.length := by
  induction rows with
  | nil => rfl
  | cons a t ih =>
    have ha := h a (List.mem_cons_self a t)
    have iht := ih (fun r hr => h r (List.mem_cons_of_mem a hr))
    unfold labelCount at *
    simp only [List.map_cons, List.count_cons, List.length_cons]
    rcases ha with h1 | h1 | h1 <;> rw [h1] <;> simp <;> omega

/-- Each label-distribution percentage of a nonempty row set lies in
`[0, 100]`. -/
theorem pctLabel_bounds (rows : List CommentRow) (l : String) (h : rows ≠ []) :
    0 ≤ pctLabel rows l ∧ pctLabel rows l ≤ 100 := by
  have hlen : 0 < rows.length := List.length_pos.mpr h
  have hlenQ : (0 : ℚ) < ((rows.length : ℕ) : ℚ) := by exact_mod_cast hlen
  have hc : (labelCount rows l : ℚ) ≤ ((rows.length : ℕ) : ℚ) := by
    exact_mod_cast labelCount_le rows l
  unfold pctLabel
  constructor
  · positivity
  · rw [div_mul_eq_mul_div, div_le_iff hlenQ]
    linarith

/-- C2 (amended): every label-distribution percentage the analytics
computation produces — real path and synthetic zero-data fallback alike —
lies in `[0, 100]` (the mock draws come from uniform(35,65), uniform(15,35)
and uniform(20,40), then round to one decimal); and for a *non-empty* stored
comment set the three percentages sum to exactly 100.  The sum property does
NOT extend to the fallback: its three percentages are independent draws (see
the counterexample). -/
theorem label_pct_amended (rows : List CommentRow) (d : MockDraws)
    (hlab : ∀ r ∈ rows, r.sentiment_label = "positive" ∨
      r.sentiment_label = "negative" ∨ r.sentiment_label = "neutral")
    (hp : 35 ≤ d.posP ∧ d.posP ≤ 65) (hn : 15 ≤ d.negP ∧ d.negP ≤ 35)
    (hu : 20 ≤ d.neuP ∧ d.neuP ≤ 40) :
    (0 ≤ (getSentimentAnalytics true rows d).positive_percentage ∧
      (getSentimentAnalytics true rows d).positive_percentage ≤ 100) ∧
    (0 ≤ (getSentimentAnalytics true rows d).negative_percentage ∧
      (getSentimentAnalytics true rows d).negative_percentage ≤ 100) ∧
    (0 ≤ (getSentimentAnalytics true rows d).neutral_percentage ∧
      (getSentimentAnalytics true rows d).neutral_percentage ≤ 100) ∧
    (rows ≠ [] →
      (getSentimentAnalytics true rows d).positive_percentage +
        (getSentimentAnalytics true rows d).negative_percentage +
        (getSentimentAnalytics true rows d).neutral_percentage = 100) := by
  by_cases hrows : rows = []
  · subst hrows
    have hg : getSentimentAnalytics true [] d = genMockAnalytics d := rfl
    rw [hg]
    simp only [genMockAnalytics]
    obtain ⟨hb1, hb2⟩ := pyRound1_bounds d.posP
    obtain ⟨hc1, hc2⟩ := pyRound1_bounds d.negP
    obtain ⟨hd1, hd2⟩ := pyRound1_bounds d.neuP
    exact ⟨⟨by linarith [hp.1, hp.2], by linarith [hp.1, hp.2]⟩,
      ⟨by linarith [hn.1, hn.2], by linarith [hn.1, hn.2]⟩,
      ⟨by linarith [hu.1, hu.2], by linarith [hu.1, hu.2]⟩,
      fun hcon => absurd rfl hcon⟩
  · have hemp : rows.isEmpty = false := by
      cases rows with
      | nil => exact absurd rfl hrows
      | cons a t => rfl
    have hg : getSentimentAnalytics true rows d =
        ⟨rows.length,
         (rows.map (fun r => r.sentiment_score)).sum / (rows.length : ℚ),
         weightedSentiment rows,
         pctLabel rows "positive", pctLabel rows "negative", pctLabel rows "neutral",
         timeTrend rows,
         ((rows.map (fun r => r.likes)).sum : ℚ) / (rows.length : ℚ)⟩ := by
      simp [getSentimentAnalytics, hemp]
    rw [hg]
    refine ⟨pctLabel_bounds rows "positive" hrows, pctLabel_bounds rows "negative" hrows,
      pctLabel_bounds rows "neutral" hrows, fun _ => ?_⟩
    have hpart := labelCount_partition rows hlab
    have hlen : 0 < rows.length := List.length_pos.mpr hrows
    have hlenQ : (0 : ℚ) < ((rows.length : ℕ) : ℚ) := by exact_mod_cast hlen
    unfold pctLabel
    rw [div_mul_eq_mul_div, div_mul_eq_mul_div, div_mul_eq_mul_div,
      div_add_div_same, div_add_div_same, div_eq_iff (ne_of_gt hlenQ)]
    push_cast [← hpart]
    ring

/-- The amended percentage theorem at a concrete 3-row set: the three
percentages sum to 100. -/
theorem label_pct_amended_w :
    (getSentimentAnalytics true [rowA, rowB, rowC] mockDrawsEx).positive_percentage +
      (getSentimentAnalytics true [rowA, rowB, rowC] mockDrawsEx).negative_percentage +
      (getSentimentAnalytics true [rowA, rowB, rowC] mockDrawsEx).neutral_percentage =
      100 := by
  have h := label_pct_amended [rowA, rowB, rowC] mockDrawsEx (by decide)
    (by decide) (by decide) (by decide)
  exact h.2.2.2 (by decide)

/-- C2 counterexample: for the empty comment set the zero-data fallback can
draw percentages 35 / 15 / 20 (each inside its uniform range), which sum to
70 — not 100 within any rounding tolerance (the gap is 30). -/
theorem label_pct_sum_cex :
    (35 ≤ mockDrawsCex.posP ∧ mockDrawsCex.posP ≤ 65) ∧
    (15 ≤ mockDrawsCex.negP ∧ mockDrawsCex.negP ≤ 35) ∧
    (20 ≤ mockDrawsCex.neuP ∧ mockDrawsCex.neuP ≤ 40) ∧
    (getSentimentAnalytics true [] mockDrawsCex).positive_percentage +
      (getSentimentAnalytics true [] mockDrawsCex).negative_percentage +
      (getSentimentAnalytics true [] mockDrawsCex).neutral_percentage = 70 ∧
    ¬(|(70 : ℚ) - 100| ≤ 1) := by
  refine ⟨by decide, by decide, by decide, ?_, by norm_num⟩
  have hg : getSentimentAnalytics true [] mockDrawsCex = genMockAnalytics mockDrawsCex := rfl
  rw [hg]
  simp only [genMockAnalytics]
  norm_num [mockDrawsCex, pyRound1, pyRoundScale, bankersRound]
